import Mathlib

/-!
Verification of the `mongo-data-api` client library (`src/client.ts`).

The development shallowly embeds the request/response translation layer of
the library: JavaScript values (as seen by `removeEmptyKeys`, the envelope
unwrapping and the object-spread body composition), the client constructor
(auth-variant detection and header resolution), the scope chain
(`db`/`collection`), and `Collection.callApi` together with each typed
operation's envelope unwrap.  HTTP responses are modelled at the transport
boundary: a numeric status, an optional status line text, the `error` field
of a JSON-parsed body when that extraction succeeds, the raw body text, and
the decoded success payload.
-/

namespace MongoDataApi

/-- JavaScript runtime values, as far as the client library inspects them:
`undefined` and `null` are the two JS nullish values; objects are
association lists of fields (in insertion order, unique keys as produced
by object literals and spreads). -/
inductive JSValue where
  | undefined : JSValue
  | null : JSValue
  | bool : Bool → JSValue
  | num : Int → JSValue
  | str : String → JSValue
  | arr : List JSValue → JSValue
  | obj : List (String × JSValue) → JSValue

/-- JS truthiness for the values modelled here (`undefined`, `null`,
`false`, `0` and `""` are falsy; arrays and objects are always truthy). -/
def JSValue.truthy : JSValue → Bool
  | .undefined => false
  | .null => false
  | .bool b => b
  | .num n => n != 0
  | .str s => s != ""
  | .arr _ => true
  | .obj _ => true

/-- `v ?? null`: JS nullish coalescing onto `null`, as in
`data.document ?? null` (`findOne`). -/
def JSValue.orNull : JSValue → JSValue
  | .undefined => .null
  | .null => .null
  | v => v

/-- Is the value nullish (`null` or `undefined`)? -/
def JSValue.isNullish : JSValue → Bool
  | .undefined => true
  | .null => true
  | _ => false

/-- Property read `v[k]` on a JS value: a field lookup on objects,
`undefined` otherwise (the library only reads properties behind truthiness
guards, so the `null`/`undefined` TypeError case is unreachable). -/
def JSValue.getField : JSValue → String → JSValue
  | .obj fs, k => ((fs.find? (fun kv => kv.1 = k)).map Prod.snd).getD .undefined
  | _, _ => .undefined

/-- First-binding lookup in an association list (JS objects produced by the
embedding keep unique keys, so this is the object's field value). -/
def jsLookup {α : Type} : List (String × α) → String → Option α
  | [], _ => none
  | (k₁, v) :: rest, k => if k₁ = k then some v else jsLookup rest k

/-- Last-binding lookup in an association list: the value the key holds
after all entries are written left to right, as a JS spread does. -/
def jsLookupLast {α : Type} : List (String × α) → String → Option α
  | [], _ => none
  | (k₁, v) :: rest, k =>
      (jsLookupLast rest k).orElse (fun _ => if k₁ = k then some v else none)

/-- Write a key into an object's field list with JS assignment semantics:
update the existing binding in place, else append. -/
def objInsert {α : Type} : List (String × α) → String → α → List (String × α)
  | [], k, v => [(k, v)]
  | (k₁, v₁) :: rest, k, v =>
      if k₁ = k then (k, v) :: rest else (k₁, v₁) :: objInsert rest k v

/-- Spread a list of entries into an object, left to right
(`{...base, ...entries}`). -/
def objSpread {α : Type} (base : List (String × α))
    (entries : List (String × α)) : List (String × α) :=
  entries.foldl (fun acc kv => objInsert acc kv.1 kv.2) base

/-- `src/client.ts` lines 74–76: `removeEmptyKeys` filters the top-level
entries of an object by `([_, v]) => v`, i.e. by JS truthiness of the
value.  (Its own doc comment says it removes keys with null/undefined.) -/
def removeEmptyKeys (object : List (String × JSValue)) :
    List (String × JSValue) :=
  object.filter (fun kv => kv.2.truthy)

/-- The typed error of `src/errors.ts`: an HTTP status code (or `-1` for
the `aggregate` fallback) together with a message. -/
structure MongoDataAPIError where
  message : String
  code : Int
  deriving DecidableEq

/-- A Data API result object `{data?, error?}`.  `data = .undefined` plays the
role of an absent/`undefined` `data` member (the two are indistinguishable
to callers reading `result.data`); `error` is either absent or a typed
error. -/
structure DataAPIResponse where
  data : JSValue
  error : Option MongoDataAPIError

/-- The transport's view of an HTTP response (spec §6): numeric status,
optional status line text, the `error` field of the JSON-parsed body when
that parse-and-extract succeeds (`none` covers both an unparsable body and
a missing/nullish field), the raw body text when readable, and the decoded
extended-JSON success payload. -/
structure Response where
  status : Nat
  statusText : Option String
  jsonError : Option String
  bodyText : Option String
  payload : JSValue

/-- `response.status < 200 || response.status >= 400`
(`src/client.ts` line 451). -/
def errStatus (status : Nat) : Bool :=
  status < 200 || 400 ≤ status

/-- The fixed table of default messages for 400/401/404/500
(`src/client.ts` lines 459–464). -/
def fallbackMessage : Nat → Option String
  | 400 => some "Bad Request"
  | 401 => some "Unauthorized"
  | 404 => some "Not Found"
  | 500 => some "Internal Server Error"
  | _ => none

/-- Error-message resolution of `src/client.ts` lines 452–472:
`errorText ?? response.statusText ?? fallbackMessage?.[status] ?? "Data API
Error"`, where `errorText` is the `error` field of the JSON-parsed body or
`undefined` when that fails.  There is no raw-body-text step here. -/
def resolveMessage (r : Response) : String :=
  (((r.jsonError.orElse fun _ => r.statusText).orElse
    fun _ => fallbackMessage r.status).getD "Data API Error")

/-- Error-message resolution of the newer client variant
(`src/unnamed/part_000` lines 623–652): on a JSON-parse failure it falls
back to the raw body text before the status line text; a body that parses
as JSON but lacks an `error` field still skips straight to the status
text.  `jsonParses` tells the two failure modes apart. -/
def resolveMessageV2 (jsonParses : Bool) (r : Response) : String :=
  ((((if jsonParses then r.jsonError else r.bodyText).orElse
    fun _ => r.statusText).orElse
    fun _ => fallbackMessage r.status).getD "Data API Error")

/-- The message cascade as the specification words it (§4.4 step 4): the
JSON body's `error` field; if that fails, the raw response text; if that
also fails, the status line text; if that is absent, the fixed table;
else the generic default. -/
def specMessageCascade (r : Response) : String :=
  ((((r.jsonError.orElse fun _ => r.bodyText).orElse
    fun _ => r.statusText).orElse
    fun _ => fallbackMessage r.status).getD "Data API Error")

/-- `Collection.callApi` response classification (`src/client.ts` lines
449–480): an error status yields `{error: MongoDataAPIError(message,
status)}` with no data; otherwise the decoded payload is returned as
`{data}` with no error.  The function is total: no classified response
throws. -/
def callApiClassify (r : Response) : DataAPIResponse :=
  if errStatus r.status then
    { data := .undefined, error := some ⟨resolveMessage r, (r.status : Int)⟩ }
  else
    { data := r.payload, error := none }

/-- The typed operation methods of `Collection`, plus the generic
`callApi` escape hatch. -/
inductive Operation where
  | findOne
  | find
  | insertOne
  | insertMany
  | updateOne
  | updateMany
  | replaceOne
  | deleteOne
  | deleteMany
  | aggregate
  | callApi
  deriving DecidableEq

/-- The result each operation method returns for a classified response,
mirroring `src/client.ts` lines 208–423: `findOne` and `find` unwrap their
envelope field behind an `if (data)` truthiness guard (`findOne` coalescing
a nullish `document` to `null`); `aggregate` unwraps `documents` when
`response.data` is truthy and otherwise surfaces the error (or an
`"Unknown error"`/`-1` fallback); every other method passes the
`callApi` result through unchanged. -/
def opResult (op : Operation) (r : Response) : DataAPIResponse :=
  let res := callApiClassify r
  match op with
  | .findOne =>
      if res.data.truthy then
        { data := (res.data.getField "document").orNull, error := res.error }
      else res
  | .find =>
      if res.data.truthy then
        { data := res.data.getField "documents", error := res.error }
      else res
  | .aggregate =>
      if res.data.truthy then
        { data := res.data.getField "documents", error := none }
      else
        { data := .undefined,
          error := some (res.error.getD ⟨"Unknown error", -1⟩) }
  | _ => res

/-- The envelope-unwrap rule of the spec's §4.3 table, applied to a decoded
success payload: `findOne` takes `.document` with absent/undefined (and
null) going to null, `find` and `aggregate` take `.documents`, every other
operation returns the payload as is. -/
def specUnwrap (op : Operation) (payload : JSValue) : JSValue :=
  match op with
  | .findOne => (payload.getField "document").orNull
  | .find => payload.getField "documents"
  | .aggregate => payload.getField "documents"
  | _ => payload

/-- A success payload is a well-formed envelope for an operation when it is
an object and, for the two `documents`-wrapped operations, actually carries
a `documents` field. -/
def envelopeOk (op : Operation) (payload : JSValue) : Bool :=
  match payload with
  | .obj _ =>
      match op with
      | .find => !(payload.getField "documents").isNullish
      | .aggregate => !(payload.getField "documents").isNullish
      | _ => true
  | _ => false

/-- An auth specifier as a runtime object: which of the duck-typed keys of
`src/authTypes.ts` (plus `bearerToken`) are present, and with what string
values. -/
structure AuthObject where
  apiKey : Option String
  jwtTokenString : Option String
  email : Option String
  password : Option String
  bearerToken : Option String
  deriving DecidableEq

/-- Auth-variant detection of the `MongoClient` constructor
(`src/client.ts` lines 127–148): the first matching shape in the order
apiKey, jwtTokenString, email+password, bearerToken determines the headers;
no shape matching is the `"Invalid auth options"` throw (`none` here). -/
def resolveAuthHeaders (auth : AuthObject) : Option (List (String × String)) :=
  match auth.apiKey with
  | some k => some [("apiKey", k)]
  | none =>
    match auth.jwtTokenString with
    | some t => some [("jwtTokenString", t)]
    | none =>
      match auth.email, auth.password with
      | some e, some p => some [("email", e), ("password", p)]
      | _, _ =>
        match auth.bearerToken with
        | some b => some [("Authorization", "Bearer " ++ b)]
        | none => none

/-- The constructor options that decide control flow in the `MongoClient`
constructor: endpoint (already a string), data source, auth object,
whether `customFetch ?? globalThis.fetch` is a usable function, and the
caller-supplied extra headers (already read into a list). -/
structure ClientConfig where
  endpoint : String
  dataSource : String
  auth : AuthObject
  hasFetch : Bool
  extraHeaders : List (String × String)

/-- A constructed client: the resolved connection context
(`src/client.ts` lines 89–155). -/
structure MongoClient where
  dataSource : String
  endpoint : String
  headers : List (String × String)

/-- The `MongoClient` constructor (`src/client.ts` lines 96–149): copy the
caller's headers, throw if no usable fetch function is found, set
`Content-Type` and `Accept` to `application/ejson`, then resolve the auth
variant (throwing `"Invalid auth options"` when none matches).  A throw is
an `Except.error`; the constructor takes no transport argument and performs
no transport call. -/
def mkClient (cfg : ClientConfig) : Except String MongoClient :=
  if !cfg.hasFetch then
    .error "No viable fetch() found. Please provide a fetch interface"
  else
    match resolveAuthHeaders cfg.auth with
    | none => .error "Invalid auth options"
    | some authHeaders =>
        .ok { dataSource := cfg.dataSource
              endpoint := cfg.endpoint
              headers := objSpread
                (objInsert
                  (objInsert cfg.extraHeaders "Content-Type" "application/ejson")
                  "Accept" "application/ejson")
                authHeaders }

/-- A `Database` scope (`src/client.ts` lines 162–180). -/
structure Database where
  name : String
  client : MongoClient

/-- `MongoClient.db` (`src/client.ts` lines 152–154): pure construction of
a `Database` scope; the name is captured verbatim, with no validation. -/
def MongoClient.db (c : MongoClient) (name : String) : Database :=
  { name := name, client := c }

/-- A `Collection` scope (`src/client.ts` lines 186–195): the collection
name, the parent `Database`, and the client lifted out of it. -/
structure Collection where
  name : String
  database : Database
  client : MongoClient

/-- `Database.collection` (`src/client.ts` lines 177–179): pure
construction of a `Collection` scope from its parent `Database`. -/
def Database.collection (d : Database) (name : String) : Collection :=
  { name := name, database := d, client := d.client }

/-- The outgoing HTTP request descriptor handed to the transport; the body
is kept as the composed object (extended-JSON serialization is an opaque
codec at this boundary). -/
structure Request where
  url : String
  httpMethod : String
  headers : List (String × String)
  body : List (String × JSValue)

/-- The request `Collection.callApi` builds (`src/client.ts` lines
435–447): POST to `endpoint + "/action/" + method` with the client's
stored headers, and a body spreading `removeEmptyKeys(body)` over
`{collection, database, dataSource}`. -/
def buildRequest (c : Collection) (method : String)
    (body : List (String × JSValue)) : Request :=
  { url := c.client.endpoint ++ "/action/" ++ method
    httpMethod := "POST"
    headers := c.client.headers
    body := objSpread
      [("collection", .str c.name),
       ("database", .str c.database.name),
       ("dataSource", .str c.client.dataSource)]
      (removeEmptyKeys body) }

/-! ### Lookup lemmas for the object model -/

theorem jsLookup_objInsert_self {α : Type} (fs : List (String × α))
    (k : String) (v : α) : jsLookup (objInsert fs k v) k = some v := by
  induction fs with
  | nil => simp [objInsert, jsLookup]
  | cons kv rest ih =>
    obtain ⟨k₁, v₁⟩ := kv
    by_cases h : k₁ = k
    · subst h; simp [objInsert, jsLookup]
    · simp [objInsert, h, jsLookup, ih]

theorem jsLookup_objInsert_ne {α : Type} (fs : List (String × α))
    (k k₂ : String) (v : α) (h : k₂ ≠ k) :
    jsLookup (objInsert fs k v) k₂ = jsLookup fs k₂ := by
  induction fs with
  | nil => simp [objInsert, jsLookup, Ne.symm h]
  | cons kv rest ih =>
    obtain ⟨k₁, v₁⟩ := kv
    by_cases h₁ : k₁ = k
    · subst h₁
      simp [objInsert, jsLookup, Ne.symm h]
    · simp [objInsert, h₁, jsLookup, ih]

theorem jsLookup_objSpread {α : Type} (ent : List (String × α))
    (base : List (String × α)) (k : String) :
    jsLookup (objSpread base ent) k =
      (jsLookupLast ent k).orElse (fun _ => jsLookup base k) := by
  induction ent generalizing base with
  | nil => simp [objSpread, jsLookupLast, Option.orElse]
  | cons kv rest ih =>
    obtain ⟨k₁, v₁⟩ := kv
    have hstep : objSpread base ((k₁, v₁) :: rest) =
        objSpread (objInsert base k₁ v₁) rest := rfl
    rw [hstep, ih]
    by_cases h : k₁ = k
    · cases hr : jsLookupLast rest k <;>
        simp [jsLookupLast, hr, Option.orElse, h, jsLookup_objInsert_self]
    · cases hr : jsLookupLast rest k <;>
        simp [jsLookupLast, hr, Option.orElse, h,
          jsLookup_objInsert_ne base k₁ k v₁ (Ne.symm h)]

theorem jsLookupLast_filter_none (l : List (String × JSValue))
    (p : String × JSValue → Bool) (k : String)
    (h : jsLookupLast l k = none) : jsLookupLast (l.filter p) k = none := by
  induction l with
  | nil => simp [jsLookupLast]
  | cons kv rest ih =>
    obtain ⟨k₁, v₁⟩ := kv
    rw [jsLookupLast] at h
    cases hr : jsLookupLast rest k with
    | some w => rw [hr] at h; simp [Option.orElse] at h
    | none =>
      rw [hr] at h
      simp only [Option.orElse] at h
      by_cases hk : k₁ = k
      · rw [if_pos hk] at h; exact absurd h (by simp)
      · rw [List.filter_cons]
        cases hp : p (k₁, v₁) with
        | false => simp [ih hr]
        | true => simp [jsLookupLast, ih hr, Option.orElse, hk]

theorem jsLookupLast_removeEmptyKeys_truthy (l : List (String × JSValue))
    (k : String) (v : JSValue) (hv : jsLookupLast l k = some v)
    (ht : v.truthy = true) :
    jsLookupLast (removeEmptyKeys l) k = some v := by
  induction l with
  | nil => simp [jsLookupLast] at hv
  | cons kv rest ih =>
    obtain ⟨k₁, v₁⟩ := kv
    rw [jsLookupLast] at hv
    cases hr : jsLookupLast rest k with
    | some w =>
      rw [hr] at hv
      simp only [Option.orElse] at hv
      obtain rfl : w = v := Option.some.inj hv
      have hrest : jsLookupLast (List.filter (fun kv => kv.2.truthy) rest) k =
          some w := by
        have h₂ := ih hr
        rw [removeEmptyKeys] at h₂
        exact h₂
      rw [removeEmptyKeys, List.filter_cons]
      cases hp : v₁.truthy with
      | false => simp [hrest]
      | true => simp [jsLookupLast, hrest, Option.orElse]
    | none =>
      rw [hr] at hv
      simp only [Option.orElse] at hv
      by_cases hk : k₁ = k
      · rw [if_pos hk] at hv
        obtain rfl : v₁ = v := Option.some.inj hv
        have hrest : jsLookupLast (List.filter (fun kv => kv.2.truthy) rest) k =
            none := jsLookupLast_filter_none rest _ k hr
        rw [removeEmptyKeys, List.filter_cons]
        simp only [ht]
        simp [jsLookupLast, hrest, Option.orElse, hk]
      · rw [if_neg hk] at hv
        exact absurd hv (by simp)

/-- `orNull` sends exactly the nullish values to `null` and leaves the rest
alone; in particular it never returns `undefined`. -/
theorem JSValue.orNull_spec (v : JSValue) :
    (v.isNullish = true → v.orNull = .null) ∧
    (v.isNullish = false → v.orNull = v) ∧ v.orNull ≠ .undefined := by
  cases v <;> simp [JSValue.orNull, JSValue.isNullish]

/-- A well-formed envelope is an object. -/
theorem envelopeOk_obj (op : Operation) (payload : JSValue)
    (h : envelopeOk op payload = true) :
    ∃ fs, payload = JSValue.obj fs := by
  cases payload <;> simp [envelopeOk] at h ⊢

/-- `matchesNoAuthShape` is the spec-side reading of "matches none of the
four recognized auth shapes": no `apiKey`, no `jwtTokenString`, not both
`email` and `password`, no `bearerToken`. -/
def matchesNoAuthShape (auth : AuthObject) : Bool :=
  !auth.apiKey.isSome && !auth.jwtTokenString.isSome &&
    !(auth.email.isSome && auth.password.isSome) && !auth.bearerToken.isSome

theorem resolveAuthHeaders_eq_none (auth : AuthObject)
    (h : matchesNoAuthShape auth = true) :
    resolveAuthHeaders auth = none := by
  obtain ⟨ak, jwt, em, pw, bt⟩ := auth
  simp [matchesNoAuthShape] at h
  cases ak with
  | some k => simp at h
  | none =>
    cases jwt with
    | some t => simp at h
    | none =>
      cases bt with
      | some b => simp at h
      | none =>
        cases em with
        | none => rfl
        | some e =>
          cases pw with
          | none => rfl
          | some p => simp at h

/-- A value that is not nullish is in particular not `undefined`. -/
theorem JSValue.ne_undef_of_not_nullish (v : JSValue)
    (h : v.isNullish = false) : v ≠ .undefined := by
  cases v <;> simp [JSValue.isNullish] at h ⊢

/-! ### C1 -/

/-- C1: for every operation and every HTTP response whose decoded success
payload is an envelope object, a status in [200,400) yields a result with
`error` absent and `data` equal to the payload unwrapped per the §4.3
table, and a status <200 or ≥400 yields a result with `data` absent and a
typed error whose `code` is the response status.  All functions involved
are total, so no classified response throws. -/
theorem c1_status_classification (op : Operation) (r : Response)
    (fs : List (String × JSValue)) (hp : r.payload = .obj fs) :
    (errStatus r.status = true →
      (opResult op r).data = .undefined ∧
      (opResult op r).error =
        some ⟨resolveMessage r, (r.status : Int)⟩) ∧
    (errStatus r.status = false →
      opResult op r = { data := specUnwrap op r.payload, error := none }) := by
  have htr : r.payload.truthy = true := by rw [hp]; rfl
  constructor
  · intro herr
    cases op <;>
      simp [opResult, callApiClassify, herr, JSValue.truthy, Option.getD]
  · intro hok
    cases op <;>
      simp [opResult, callApiClassify, hok, htr, specUnwrap]

/-- Concrete success response for the C1 witness: a `find` envelope. -/
def c1resp : Response :=
  { status := 200, statusText := none, jsonError := none, bodyText := none,
    payload := .obj [("documents", .arr [.obj [("test", .str "foo")]])] }

/-- Witness for C1: evaluating the classification on a concrete success
response. -/
theorem c1_witness :
    errStatus c1resp.status = false ∧
    opResult .find c1resp =
      { data := specUnwrap .find c1resp.payload, error := none } :=
  ⟨rfl, (c1_status_classification .find c1resp _ rfl).2 rfl⟩

/-! ### C2 -/

/-- C2: evaluation of `removeEmptyKeys` at a body with `skip: 0` and
`upsert: false`.  The code drops every falsy-valued top-level key — the
`0`- and `false`-valued keys disappear along with the null/undefined ones,
contradicting the claim (and the function's own doc comment) that only
null/undefined keys are removed. -/
theorem c2_truthiness_filter :
    removeEmptyKeys
      [("filter", .obj []), ("skip", .num 0), ("upsert", .bool false),
       ("projection", .undefined), ("sort", .null), ("limit", .num 5)] =
      [("filter", .obj []), ("limit", .num 5)] := rfl

/-! ### C3 -/

/-- C3: constructing a client with no usable transport function or with an
auth specifier matching none of the four recognized shapes fails with a
synchronous construction-time error.  `mkClient` takes no transport
argument, so no transport call can occur before (or during) the failure. -/
theorem c3_construction_error (cfg : ClientConfig)
    (h : cfg.hasFetch = false ∨ matchesNoAuthShape cfg.auth = true) :
    ∃ msg, mkClient cfg = .error msg := by
  cases h with
  | inl hf =>
    exact ⟨"No viable fetch() found. Please provide a fetch interface",
      by rw [mkClient]; simp [hf]⟩
  | inr ha =>
    have hna := resolveAuthHeaders_eq_none cfg.auth ha
    cases hcf : cfg.hasFetch with
    | false =>
      exact ⟨"No viable fetch() found. Please provide a fetch interface",
        by rw [mkClient]; simp [hcf]⟩
    | true =>
      exact ⟨"Invalid auth options", by rw [mkClient]; simp [hcf, hna]⟩

/-- Config with a valid auth shape but no usable fetch function. -/
def c3cfgNoFetch : ClientConfig :=
  { endpoint := "https://example.com/v1", dataSource := "ds",
    auth := ⟨some "key", none, none, none, none⟩, hasFetch := false,
    extraHeaders := [] }

/-- Config with a usable fetch but an auth object matching no shape
(an email without a password). -/
def c3cfgBadAuth : ClientConfig :=
  { endpoint := "https://example.com/v1", dataSource := "ds",
    auth := ⟨none, none, some "user@example.com", none, none⟩,
    hasFetch := true, extraHeaders := [] }

/-- Witness for C3: both failure modes at concrete configurations. -/
theorem c3_witness :
    (c3cfgNoFetch.hasFetch = false ∧
      ∃ msg, mkClient c3cfgNoFetch = .error msg) ∧
    (matchesNoAuthShape c3cfgBadAuth.auth = true ∧
      ∃ msg, mkClient c3cfgBadAuth = .error msg) :=
  ⟨⟨rfl, c3_construction_error c3cfgNoFetch (Or.inl rfl)⟩,
    ⟨rfl, c3_construction_error c3cfgBadAuth (Or.inr rfl)⟩⟩

/-! ### C4 -/

/-- C4: on a success response whose decoded envelope is an object, `findOne`
yields `data: null` (with `error` absent) exactly when the envelope's
`document` field is null or absent/undefined, and otherwise yields the
`document` field's value as `data`. -/
theorem c4_findOne_envelope (r : Response) (fs : List (String × JSValue))
    (hp : r.payload = .obj fs) (hs : errStatus r.status = false) :
    ((r.payload.getField "document").isNullish = true →
      opResult .findOne r = { data := .null, error := none }) ∧
    ((r.payload.getField "document").isNullish = false →
      opResult .findOne r =
        { data := r.payload.getField "document", error := none }) := by
  have htr : r.payload.truthy = true := by rw [hp]; rfl
  constructor
  · intro hn
    have horn := (JSValue.orNull_spec (r.payload.getField "document")).1 hn
    simp [opResult, callApiClassify, hs, htr, horn]
  · intro hn
    have horn := (JSValue.orNull_spec (r.payload.getField "document")).2.1 hn
    simp [opResult, callApiClassify, hs, htr, horn]

/-- Concrete success response for the C4 witness: `{document: null}`. -/
def c4resp : Response :=
  { status := 200, statusText := none, jsonError := none, bodyText := none,
    payload := .obj [("document", .null)] }

/-- Witness for C4: a `{document: null}` envelope yields `data: null` with
no error. -/
theorem c4_witness :
    errStatus c4resp.status = false ∧
    (c4resp.payload.getField "document").isNullish = true ∧
    opResult .findOne c4resp = { data := .null, error := none } :=
  ⟨rfl, rfl, (c4_findOne_envelope c4resp _ rfl rfl).1 rfl⟩

/-! ### C5 -/

/-- An error response whose body is readable text but not valid JSON, with
a status line present: the claimed cascade and the code diverge here. -/
def c5resp : Response :=
  { status := 503, statusText := some "Service Unavailable",
    jsonError := none, bodyText := some "upstream timeout",
    payload := .null }

/-- C5 counterexample: on a 503 whose body text is `"upstream timeout"`
(not JSON) and whose status line is `"Service Unavailable"`, the claimed
cascade resolves to the raw body text, but `src/client.ts` has no
raw-text fallback and resolves to the status line text instead. -/
theorem c5_counterexample :
    resolveMessage c5resp = "Service Unavailable" ∧
    specMessageCascade c5resp = "upstream timeout" ∧
    resolveMessage c5resp ≠ specMessageCascade c5resp ∧
    (callApiClassify c5resp).error =
      some ⟨"Service Unavailable", 503⟩ := by
  refine ⟨rfl, rfl, ?_, rfl⟩
  decide

/-- The amended message cascade, as `src/client.ts` implements it: the
`error` field of the JSON-parsed body; failing that, the status line text;
failing that, the fixed 400/401/404/500 table; else the generic default.
(The raw response text is never consulted; only the newer
`src/unnamed/part_000` variant adds that step.) -/
def amendedMessage (r : Response) : String :=
  match r.jsonError with
  | some m => m
  | none =>
    match r.statusText with
    | some m => m
    | none =>
      match fallbackMessage r.status with
      | some m => m
      | none => "Data API Error"

/-- C5 amended: every error-classified response produces a typed error
carrying the response status as its code and the message resolved by the
amended cascade (JSON `error` field, then status line text, then fixed
table, then generic default). -/
theorem c5_amended_cascade (r : Response) (h : errStatus r.status = true) :
    callApiClassify r =
      { data := .undefined,
        error := some ⟨amendedMessage r, (r.status : Int)⟩ } := by
  have hm : resolveMessage r = amendedMessage r := by
    simp only [resolveMessage, amendedMessage]
    cases r.jsonError <;> cases r.statusText <;>
      cases hf : fallbackMessage r.status <;>
      simp [Option.orElse, Option.getD, hf]
  rw [callApiClassify, if_pos h, hm]

/-- A bare 404 with no readable message anywhere: the amended cascade falls
through to the fixed table. -/
def c5resp2 : Response :=
  { status := 404, statusText := none, jsonError := none, bodyText := none,
    payload := .null }

/-- Witness for the amended C5 theorem at a concrete 404 response. -/
theorem c5_witness :
    errStatus c5resp2.status = true ∧
    callApiClassify c5resp2 =
      { data := .undefined, error := some ⟨"Not Found", 404⟩ } :=
  ⟨rfl, c5_amended_cascade c5resp2 rfl⟩

/-! ### C6 -/

/-- A success response whose envelope is an object without the expected
`documents` wrapper field. -/
def c6respA : Response :=
  { status := 200, statusText := none, jsonError := none, bodyText := none,
    payload := .obj [] }

/-- C6 counterexample: `find` on a status-200 response whose envelope lacks
`documents` returns a result with `data` absent AND `error` absent — the
"never neither" part of the claim fails for an operation other than
`findOne`. -/
theorem c6_counterexample :
    (opResult .find c6respA).data = .undefined ∧
    (opResult .find c6respA).error = none := ⟨rfl, rfl⟩

/-- C6 amended: for every operation and every classified response whose
success envelope is well formed for that operation (an object, carrying a
non-nullish `documents` field for `find`/`aggregate`), exactly one of
`data`/`error` is present: `error` is absent iff `data` is not absent.
`findOne`'s successful no-match keeps `data` present as `null` with
`error` absent. -/
theorem c6_exclusive (op : Operation) (r : Response)
    (h : errStatus r.status = false → envelopeOk op r.payload = true) :
    ((opResult op r).error = none ↔ (opResult op r).data ≠ .undefined) := by
  cases herr : errStatus r.status with
  | true =>
    cases op <;> simp [opResult, callApiClassify, herr, JSValue.truthy]
  | false =>
    have hok := h herr
    obtain ⟨fs, hfs⟩ := envelopeOk_obj op r.payload hok
    have htr : r.payload.truthy = true := by rw [hfs]; rfl
    cases op
    case findOne =>
      simp [opResult, callApiClassify, herr, htr,
        (JSValue.orNull_spec (r.payload.getField "document")).2.2]
    case find =>
      rw [hfs] at hok
      simp only [envelopeOk, Bool.not_eq_true'] at hok
      rw [← hfs] at hok
      simp [opResult, callApiClassify, herr, htr,
        JSValue.ne_undef_of_not_nullish _ hok]
    case aggregate =>
      rw [hfs] at hok
      simp only [envelopeOk, Bool.not_eq_true'] at hok
      rw [← hfs] at hok
      simp [opResult, callApiClassify, herr, htr,
        JSValue.ne_undef_of_not_nullish _ hok]
    all_goals
      simp [opResult, callApiClassify, herr, htr, hfs]

/-- A concrete success response with a well-formed `insertOne` envelope. -/
def c6respB : Response :=
  { status := 201, statusText := none, jsonError := none, bodyText := none,
    payload := .obj [("insertedId", .str "6193504e1be4ab27791c8133")] }

/-- Witness for the amended C6 theorem at a concrete `insertOne` success. -/
theorem c6_witness :
    (errStatus c6respB.status = false →
      envelopeOk .insertOne c6respB.payload = true) ∧
    ((opResult .insertOne c6respB).error = none ↔
      (opResult .insertOne c6respB).data ≠ .undefined) :=
  ⟨fun _ => rfl, c6_exclusive .insertOne c6respB (fun _ => rfl)⟩

/-! ### C7 -/

theorem jsLookupLast_single {α : Type} (n m : String) (v : α) (h : n ≠ m) :
    jsLookupLast [(n, v)] m = none := by
  simp [jsLookupLast, Option.orElse, h]

theorem jsLookupLast_double {α : Type} (n₁ n₂ m : String) (v₁ v₂ : α)
    (h₁ : n₁ ≠ m) (h₂ : n₂ ≠ m) :
    jsLookupLast [(n₁, v₁), (n₂, v₂)] m = none := by
  simp [jsLookupLast, Option.orElse, h₁, h₂]

/-- None of the four auth variants sets a header named `Content-Type` or
`Accept`. -/
theorem resolveAuthHeaders_no_reserved (auth : AuthObject)
    (ah : List (String × String))
    (hah : resolveAuthHeaders auth = some ah) :
    jsLookupLast ah "Content-Type" = none ∧
      jsLookupLast ah "Accept" = none := by
  obtain ⟨ak, jwt, em, pw, bt⟩ := auth
  cases ak with
  | some k =>
    simp only [resolveAuthHeaders, Option.some.injEq] at hah
    subst hah
    exact ⟨jsLookupLast_single _ _ _ (by decide),
      jsLookupLast_single _ _ _ (by decide)⟩
  | none =>
    cases jwt with
    | some t =>
      simp only [resolveAuthHeaders, Option.some.injEq] at hah
      subst hah
      exact ⟨jsLookupLast_single _ _ _ (by decide),
        jsLookupLast_single _ _ _ (by decide)⟩
    | none =>
      cases em with
      | some e =>
        cases pw with
        | some p =>
          simp only [resolveAuthHeaders, Option.some.injEq] at hah
          subst hah
          exact ⟨jsLookupLast_double _ _ _ _ _ (by decide) (by decide),
            jsLookupLast_double _ _ _ _ _ (by decide) (by decide)⟩
        | none =>
          cases bt with
          | some b =>
            simp only [resolveAuthHeaders, Option.some.injEq] at hah
            subst hah
            exact ⟨jsLookupLast_single _ _ _ (by decide),
              jsLookupLast_single _ _ _ (by decide)⟩
          | none => simp [resolveAuthHeaders] at hah
      | none =>
        cases bt with
        | some b =>
          simp only [resolveAuthHeaders, Option.some.injEq] at hah
          subst hah
          exact ⟨jsLookupLast_single _ _ _ (by decide),
            jsLookupLast_single _ _ _ (by decide)⟩
        | none => simp [resolveAuthHeaders] at hah

/-- The request a client scope issues for an operation: the `callApi`
request of the collection scope `client.db(dbName).collection(collName)`. -/
def requestOf (c : MongoClient) (dbName collName method : String)
    (body : List (String × JSValue)) : Request :=
  buildRequest ((c.db dbName).collection collName) method body

/-- General request-shape characterization: for every successfully
constructed client and every operation invocation, the outgoing request is
a POST to `endpoint + "/action/" + method`, its headers carry
`Content-Type` and `Accept` set to `application/ejson` together with every
auth header the construction resolved, and its body is `{collection,
database, dataSource}` from the scope merged with the caller's surviving
(truthy-valued) fields — the caller's last binding winning over the scope
value, and every key other than the three scope keys coming solely from
the filtered caller body. -/
theorem requestShape_characterization (cfg : ClientConfig) (c : MongoClient)
    (hc : mkClient cfg = .ok c) (dbName collName method : String)
    (body : List (String × JSValue)) :
    (requestOf c dbName collName method body).httpMethod = "POST" ∧
    (requestOf c dbName collName method body).url =
      cfg.endpoint ++ "/action/" ++ method ∧
    jsLookup (requestOf c dbName collName method body).headers
      "Content-Type" = some "application/ejson" ∧
    jsLookup (requestOf c dbName collName method body).headers
      "Accept" = some "application/ejson" ∧
    (∀ ah name hv, resolveAuthHeaders cfg.auth = some ah →
      jsLookupLast ah name = some hv →
      jsLookup (requestOf c dbName collName method body).headers name =
        some hv) ∧
    jsLookup (requestOf c dbName collName method body).body "collection" =
      some ((jsLookupLast (removeEmptyKeys body) "collection").getD
        (.str collName)) ∧
    jsLookup (requestOf c dbName collName method body).body "database" =
      some ((jsLookupLast (removeEmptyKeys body) "database").getD
        (.str dbName)) ∧
    jsLookup (requestOf c dbName collName method body).body "dataSource" =
      some ((jsLookupLast (removeEmptyKeys body) "dataSource").getD
        (.str cfg.dataSource)) ∧
    (∀ k, k ≠ "collection" → k ≠ "database" → k ≠ "dataSource" →
      jsLookup (requestOf c dbName collName method body).body k =
        jsLookupLast (removeEmptyKeys body) k) := by
  rw [mkClient] at hc
  cases hf : cfg.hasFetch with
  | false => rw [hf] at hc; simp at hc
  | true =>
    rw [hf] at hc
    simp only [Bool.not_true, Bool.false_eq_true, if_false] at hc
    cases hah : resolveAuthHeaders cfg.auth with
    | none => rw [hah] at hc; simp at hc
    | some ah₀ =>
      rw [hah] at hc
      simp only [Except.ok.injEq] at hc
      subst hc
      obtain ⟨hct, hac⟩ := resolveAuthHeaders_no_reserved cfg.auth ah₀ hah
      refine ⟨rfl, rfl, ?_, ?_, ?_, ?_, ?_, ?_, ?_⟩
      · simp only [requestOf, buildRequest, MongoClient.db, Database.collection]
        rw [jsLookup_objSpread, hct]
        simp only [Option.orElse]
        rw [jsLookup_objInsert_ne _ _ _ _ (by decide),
          jsLookup_objInsert_self]
      · simp only [requestOf, buildRequest, MongoClient.db, Database.collection]
        rw [jsLookup_objSpread, hac]
        simp only [Option.orElse]
        rw [jsLookup_objInsert_self]
      · intro ah name hv h₁ h₂
        obtain rfl : ah₀ = ah := Option.some.inj h₁
        simp only [requestOf, buildRequest, MongoClient.db, Database.collection]
        rw [jsLookup_objSpread, h₂]
        rfl
      · simp only [requestOf, buildRequest, MongoClient.db, Database.collection]
        rw [jsLookup_objSpread]
        cases hb : jsLookupLast (removeEmptyKeys body) "collection" <;>
          simp [hb, Option.orElse, jsLookup]
      · simp only [requestOf, buildRequest, MongoClient.db, Database.collection]
        rw [jsLookup_objSpread]
        cases hb : jsLookupLast (removeEmptyKeys body) "database" <;>
          simp [hb, Option.orElse, jsLookup]
      · simp only [requestOf, buildRequest, MongoClient.db, Database.collection]
        rw [jsLookup_objSpread]
        cases hb : jsLookupLast (removeEmptyKeys body) "dataSource" <;>
          simp [hb, Option.orElse, jsLookup]
      · intro k h₁ h₂ h₃
        simp only [requestOf, buildRequest, MongoClient.db, Database.collection]
        rw [jsLookup_objSpread]
        cases hb : jsLookupLast (removeEmptyKeys body) k <;>
          simp [hb, Option.orElse, jsLookup, Ne.symm h₁, Ne.symm h₂,
            Ne.symm h₃]

/-- A concrete configuration with an apiKey auth variant. -/
def reqCfg : ClientConfig :=
  { endpoint := "https://data.example.com/v1", dataSource := "test-ds",
    auth := ⟨some "secretKey", none, none, none, none⟩, hasFetch := true,
    extraHeaders := [] }

/-- The client `mkClient` produces from `reqCfg`. -/
def reqClient : MongoClient :=
  { dataSource := "test-ds", endpoint := "https://data.example.com/v1",
    headers := [("Content-Type", "application/ejson"),
      ("Accept", "application/ejson"), ("apiKey", "secretKey")] }

/-- The request-shape characterization instantiated at a concrete client,
scope and body. -/
theorem requestShape_instance :
    mkClient reqCfg = .ok reqClient ∧
    (requestOf reqClient "db1" "coll1" "findOne"
      [("filter", .obj [])]).httpMethod = "POST" ∧
    jsLookup (requestOf reqClient "db1" "coll1" "findOne"
      [("filter", .obj [])]).headers "Content-Type" =
        some "application/ejson" ∧
    jsLookup (requestOf reqClient "db1" "coll1" "findOne"
      [("filter", .obj [])]).body "collection" = some (.str "coll1") :=
  ⟨rfl,
    (requestShape_characterization reqCfg reqClient rfl "db1" "coll1" "findOne" _).1,
    (requestShape_characterization reqCfg reqClient rfl "db1" "coll1" "findOne" _).2.2.1,
    (requestShape_characterization reqCfg reqClient rfl "db1" "coll1" "findOne" _).2.2.2.2.2.1⟩

/-- C7: evaluation of the composed request at the failing input — a `find`
invocation whose caller body is `{filter: {}, skip: 0}`.  The `skip` key is
absent from the composed body even though `0` is neither null nor
undefined (`removeEmptyKeys` drops every falsy value), so the body is not
"the scope triple merged with the caller fields with null/undefined
fields omitted" as the claim describes.  The POST method, the URL and the
scope/caller merge otherwise behave as claimed. -/
theorem c7_body_drops_zero :
    jsLookup (requestOf reqClient "db1" "coll1" "find"
      [("filter", .obj []), ("skip", .num 0)]).body "skip" = none ∧
    (JSValue.num 0).isNullish = false ∧
    jsLookup (requestOf reqClient "db1" "coll1" "find"
      [("filter", .obj []), ("skip", .num 0)]).body "filter" =
      some (.obj []) ∧
    (requestOf reqClient "db1" "coll1" "find"
      [("filter", .obj []), ("skip", .num 0)]).httpMethod = "POST" ∧
    (requestOf reqClient "db1" "coll1" "find"
      [("filter", .obj []), ("skip", .num 0)]).url =
      "https://data.example.com/v1/action/find" ∧
    jsLookup (requestOf reqClient "db1" "coll1" "find"
      [("filter", .obj []), ("skip", .num 0)]).body "collection" =
      some (.str "coll1") ∧
    jsLookup (requestOf reqClient "db1" "coll1" "find"
      [("filter", .obj []), ("skip", .num 0)]).body "dataSource" =
      some (.str "test-ds") :=
  ⟨rfl, rfl, rfl, rfl, rfl, rfl, rfl⟩

/-! ### C8 -/

/-- A concrete client for exercising the scope constructors. -/
def c8client : MongoClient :=
  { dataSource := "ds", endpoint := "https://example.com/v1", headers := [] }

/-- C8 counterexample: `db("")` and `collection("")` succeed and capture
the empty string — the constructors perform no validation, so non-empty
identifiers are not "required at construction" as the claim states. -/
theorem c8_counterexample :
    (c8client.db "").name = "" ∧
    ((c8client.db "").collection "").name = "" := ⟨rfl, rfl⟩

/-- C8 amended: scope constructors are pure and total, capture the caller's
name verbatim (with no validation, so an empty name is accepted), a
Collection scope always holds the Database scope it was built from, and
both scopes share the client by reference. -/
theorem c8_scope_structure (c : MongoClient) (dn cn : String) :
    (c.db dn).name = dn ∧ (c.db dn).client = c ∧
    ((c.db dn).collection cn).name = cn ∧
    ((c.db dn).collection cn).database = c.db dn ∧
    ((c.db dn).collection cn).client = c :=
  ⟨rfl, rfl, rfl, rfl, rfl⟩

/-! ### C9 -/

/-- C9: auth-variant detection applies exactly one variant, by the fixed
precedence apiKey, then jwtTokenString, then email+password, then
bearerToken: whenever `apiKey` is present the headers are exactly the
apiKey pair regardless of every other field; with no `apiKey`, a present
`jwtTokenString` wins likewise; then a complete email+password pair; and
`bearerToken` only applies when no earlier shape matched (here: an email
without a password does not block it). -/
theorem c9_auth_precedence (k t e p b : String)
    (jwtO eO pO btO : Option String) :
    resolveAuthHeaders ⟨some k, jwtO, eO, pO, btO⟩ = some [("apiKey", k)] ∧
    resolveAuthHeaders ⟨none, some t, eO, pO, btO⟩ =
      some [("jwtTokenString", t)] ∧
    resolveAuthHeaders ⟨none, none, some e, some p, btO⟩ =
      some [("email", e), ("password", p)] ∧
    resolveAuthHeaders ⟨none, none, some e, none, some b⟩ =
      some [("Authorization", "Bearer " ++ b)] :=
  ⟨rfl, rfl, rfl, rfl⟩

/-! ### C10 -/

/-- C10: in the composed `callApi` body, a caller-supplied truthy top-level
value always wins over the scope-injected one (the caller entries are
spread after the scope triple), and each scope identifier appears exactly
when the caller's binding for it was dropped as empty or absent. -/
theorem c10_body_merge (c : Collection) (method : String)
    (body : List (String × JSValue)) :
    (∀ k v, jsLookupLast body k = some v → v.truthy = true →
      jsLookup (buildRequest c method body).body k = some v) ∧
    (jsLookupLast (removeEmptyKeys body) "collection" = none →
      jsLookup (buildRequest c method body).body "collection" =
        some (.str c.name)) ∧
    (jsLookupLast (removeEmptyKeys body) "database" = none →
      jsLookup (buildRequest c method body).body "database" =
        some (.str c.database.name)) ∧
    (jsLookupLast (removeEmptyKeys body) "dataSource" = none →
      jsLookup (buildRequest c method body).body "dataSource" =
        some (.str c.client.dataSource)) := by
  refine ⟨?_, ?_, ?_, ?_⟩
  · intro k v hv ht
    have hl := jsLookupLast_removeEmptyKeys_truthy body k v hv ht
    simp only [buildRequest]
    rw [jsLookup_objSpread, hl]
    rfl
  · intro h
    simp only [buildRequest]
    rw [jsLookup_objSpread, h]
    rfl
  · intro h
    simp only [buildRequest]
    rw [jsLookup_objSpread, h]
    rfl
  · intro h
    simp only [buildRequest]
    rw [jsLookup_objSpread, h]
    rfl

/-- A concrete client for the C10 witness. -/
def c10client : MongoClient :=
  { dataSource := "scoped-ds", endpoint := "https://example.com/v1",
    headers := [] }

/-- A concrete collection scope for the C10 witness. -/
def c10coll : Collection :=
  (c10client.db "scoped-db").collection "scoped-coll"

/-- Witness for C10: a truthy caller-supplied `dataSource` overrides the
scope's value in the composed body. -/
theorem c10_witness :
    jsLookupLast [("dataSource", JSValue.str "override-ds")] "dataSource" =
      some (.str "override-ds") ∧
    (JSValue.str "override-ds").truthy = true ∧
    jsLookup (buildRequest c10coll "listIndexes"
      [("dataSource", JSValue.str "override-ds")]).body "dataSource" =
      some (.str "override-ds") :=
  ⟨rfl, rfl,
    (c10_body_merge c10coll "listIndexes" _).1 "dataSource" _ rfl rfl⟩

end MongoDataApi
